import Mathlib

/-!
Shallow embedding of `src/languagemodels/languagemodels.py`.

The module is a thin wrapper around third-party models and HTTP endpoints.
All substantive computation (model loading, embedding, generation, HTTP) is
performed by external libraries, so those are modelled as oracle parameters:

* `env`    : `os.environ.get`, a partial map from variable names to values;
* `remote` : the parsed JSON body returned by the TextSynth completion POST,
  modelled as an association list of string fields (the code only reads the
  `"text"` field);
* `gen`    : the composite `tokenizer(prompt)` / `model.generate` /
  `tokenizer.batch_decode` local path, a function from the model handle, the
  tokenizer handle and the prompt to the list of decoded outputs;
* `encode` : the sentence-embedding dot score of a query against a document
  (`util.dot_score` over `encode`); the code only compares scores, so the
  score type is abstracted to an ordered type (`Int`) in place of `float`;
* `wikiSearch` / `fetch` : the two Wikipedia endpoints;
* `qa` / `pipe` : the question-answering and text-classification pipelines.

Loaded model / tokenizer handles are opaque Python objects; they are modelled
as `Nat` identifiers handed out by a counter `nextId` in the process state,
so that "a fresh load happened" is observable as an increment of `nextId`
and "the identical cached handle" is equality of identifiers.

Python exceptions relevant to the embedded fragment are `InferenceException`
(which the source raises with a message interpolating the raw parsed
response; the embedding carries the response itself), `KeyError` from a
missing dictionary key, and `IndexError` from `[0]` on an empty list.
-/

namespace LanguageModels

/-- Python exceptions raised by the embedded fragment.
`inferenceException` models `InferenceException` (languagemodels.py lines
8-9), raised carrying the raw parsed TextSynth response. -/
inductive PyError where
  | inferenceException (resp : List (String × String))
  | keyError (key : String)
  | indexError
deriving DecidableEq

/-- Process-wide mutable state: the two module-level caches
`modelcache` and `tokenizercache` (lines 12-13), plus a counter
producing fresh opaque handles for newly loaded models/tokenizers. -/
structure LMState where
  modelcache : String → Option Nat
  tokenizercache : String → Option Nat
  nextId : Nat

/-- The empty process state: both caches empty. -/
def initState : LMState :=
  { modelcache := fun _ => none, tokenizercache := fun _ => none, nextId := 0 }

/-- Function `get_model` (lines 16-22): if `model not in modelcache`, load it
(handing out a fresh handle) and store it; return `modelcache[model]`. -/
def get_model (s : LMState) (model : String) : Nat × LMState :=
  match s.modelcache model with
  | some h => (h, s)
  | none =>
      (s.nextId,
        { s with
          modelcache := fun k => if k = model then some s.nextId else s.modelcache k
          nextId := s.nextId + 1 })

/-- Function `get_tokenizer` (lines 25-29): same load-or-get pattern on
`tokenizercache`. -/
def get_tokenizer (s : LMState) (tokenizer : String) : Nat × LMState :=
  match s.tokenizercache tokenizer with
  | some h => (h, s)
  | none =>
      (s.nextId,
        { s with
          tokenizercache := fun k => if k = tokenizer then some s.nextId else s.tokenizercache k
          nextId := s.nextId + 1 })

/-- The inline load-or-get pattern used directly on `modelcache` by
`match`, `extract_answer` and `is_positive`
(`if model not in modelcache: modelcache[model] = ...`). -/
def cacheModel (s : LMState) (model : String) : LMState :=
  match s.modelcache model with
  | some _ => s
  | none =>
      { s with
        modelcache := fun k => if k = model then some s.nextId else s.modelcache k
        nextId := s.nextId + 1 }

/-- Python truthiness of the result of `os.environ.get`: `None` and the
empty string are falsy, every other string is truthy. -/
def pyTruthy : Option String → Bool
  | none => false
  | some v => v ≠ ""

/-- Function `do` (lines 32-63; `do` is a Lean keyword, hence the name `do'`).
`if os.environ.get("textsynth-api-key"):` POST the prompt to TextSynth and
return the `"text"` field of the parsed response, raising
`InferenceException` with the raw response when that field is absent.
Otherwise load (through the caches) the fixed `google/flan-t5-large`
model/tokenizer pair, tokenize, generate, decode, and return element `[0]`
of the decoded batch. -/
def do' (env : String → Option String) (remote : String → List (String × String))
    (gen : Nat → Nat → String → List String) (s : LMState) (prompt : String) :
    Except PyError String × LMState :=
  if pyTruthy (env "textsynth-api-key") then
    let resp := remote prompt
    match resp.lookup "text" with
    | some txt => (.ok txt, s)
    | none => (.error (.inferenceException resp), s)
  else
    let ms := get_model s "google/flan-t5-large"
    let ts := get_tokenizer ms.2 "google/flan-t5-large"
    match gen ms.1 ts.1 prompt with
    | [] => (.error .indexError, ts.2)
    | out :: _ => (.ok out, ts.2)

/-- Function `chat` (lines 66-74): wrap the user prompt in the fixed three-line
template and forward to `do`. -/
def chat (env : String → Option String) (remote : String → List (String × String))
    (gen : Nat → Nat → String → List String) (s : LMState) (userprompt : String) :
    Except PyError String × LMState :=
  do' env remote gen s
    ("System: Agent responses will be truthful, helpful, and harmless.\nUser: "
      ++ userprompt ++ "\nAgent: ")

/-- Spec-side description of the remote branch of `do`: the value of the
`"text"` field of the parsed response when present, otherwise an
`InferenceException` carrying the raw parsed response. -/
def doRemoteSpec (remote : String → List (String × String)) (prompt : String) :
    Except PyError String :=
  match (remote prompt).lookup "text" with
  | some txt => Except.ok txt
  | none => Except.error (PyError.inferenceException (remote prompt))

/-- Spec-side description of the local branch of `do`: lazily load and
cache the fixed `google/flan-t5-large` model/tokenizer pair through the
caches, generate, and return the first decoded output. -/
def doLocalSpec (gen : Nat → Nat → String → List String) (s : LMState) (prompt : String) :
    Except PyError String × LMState :=
  let ms := get_model s "google/flan-t5-large"
  let ts := get_tokenizer ms.2 "google/flan-t5-large"
  ((gen ms.1 ts.1 prompt).head?.elim (Except.error PyError.indexError) Except.ok, ts.2)

/-- The comparison `sorted(..., key=lambda x: x[1], reverse=True)` sorts on:
`a` precedes `b` when the score of `a` is at least the score of `b`.  The
Python `sorted` builtin is stable; `List.insertionSort` with this relation is exactly the stable
descending-by-score sort (equal scores keep original order). -/
def byScoreDesc (a b : String × Int) : Prop := b.2 ≤ a.2

instance : DecidableRel byScoreDesc := fun a b => Int.decLe b.2 a.2

/-- Function `match` (lines 77-101; `match` is a Lean keyword, hence `match'`).
Load-or-get the sentence transformer in `modelcache`, score each document
against the query, zip documents with scores, stably sort descending by
score, and return `doc_score_pairs[0][0]` (an `IndexError` when empty). -/
def match' (encode : String → String → Int) (s : LMState) (query : String)
    (docs : List String) : Except PyError String × LMState :=
  let s' := cacheModel s "sentence-transformers/multi-qa-MiniLM-L6-cos-v1"
  let scores := docs.map (encode query)
  let doc_score_pairs := docs.zip scores
  match List.insertionSort byScoreDesc doc_score_pairs with
  | [] => (.error .indexError, s')
  | p :: _ => (.ok p.1, s')

/-- The page dictionary `first` popped from `wiki_result["query"]["pages"]`
in `search`.  The code reads exactly two keys: `first["pageprops"]` (here
the list of keys of that sub-dictionary, `none` when the key is absent)
and `first["extract"]` (`none` when absent); an absent key is a `KeyError`. -/
structure WikiPage where
  pageprops : Option (List String)
  extract : Option String

/-- The `for page in response["pages"]` loop of `search` (lines 122-133):
fetch each page, test `"disambiguation" in first["pageprops"]` and skip,
else return `first["extract"]`; falling off the loop returns `None`. -/
def searchLoop (fetch : String → WikiPage) : List String → Except PyError (Option String)
  | [] => .ok none
  | title :: rest =>
      let first := fetch title
      match first.pageprops with
      | none => .error (.keyError "pageprops")
      | some props =>
          if "disambiguation" ∈ props then searchLoop fetch rest
          else
            match first.extract with
            | none => .error (.keyError "extract")
            | some summary => .ok (some summary)

/-- Function `search` (lines 104-133): GET the title-search endpoint with
`params={"q": topic, "limit": 5}`, then run the page loop over the
returned titles in order. -/
def search (wikiSearch : String → Nat → List String) (fetch : String → WikiPage)
    (topic : String) : Except PyError (Option String) :=
  searchLoop fetch (wikiSearch topic 5)

/-- The test `"disambiguation" in first["pageprops"]` as a Boolean on a page whose
`pageprops` key is present; a page with `pageprops` absent is not reached
by this test in the source (it raises `KeyError` first). -/
def flaggedDisambiguation (p : WikiPage) : Bool :=
  match p.pageprops with
  | some props => decide ("disambiguation" ∈ props)
  | none => false

/-- Function `extract_answer` (lines 136-150): load-or-get the QA pipeline in
`modelcache` and return its `"answer"` field. -/
def extract_answer (qa : String → String → String) (s : LMState)
    (question context : String) : String × LMState :=
  let s' := cacheModel s "distilbert-base-cased-distilled-squad"
  (qa question context, s')

/-- One prediction dictionary returned by the text-classification
pipeline; the code reads its `"label"` field (the `"score"` field is
carried along but never read). -/
structure SentPrediction where
  label : String
  score : Int

/-- Function `is_positive` (lines 153-170): load-or-get the sentiment pipeline in
`modelcache`, run it, and return `prediction[0]["label"] == "POSITIVE"`
(`IndexError` when the pipeline returns no predictions). -/
def is_positive (pipe : String → List SentPrediction) (s : LMState) (doc : String) :
    Except PyError Bool × LMState :=
  let s' := cacheModel s "distilbert-base-uncased-finetuned-sst-2-english"
  match pipe doc with
  | [] => (.error .indexError, s')
  | p :: _ => (.ok (p.label == "POSITIVE"), s')

/-- State `s'` extends `s`: every cache entry of `s` is still present, with the
identical handle, in `s'`. -/
def cacheExtends (s s' : LMState) : Prop :=
  (∀ k h, s.modelcache k = some h → s'.modelcache k = some h) ∧
  (∀ k h, s.tokenizercache k = some h → s'.tokenizercache k = some h)

/-- The head of the stable descending sort is the earliest entry attaining
the maximal score: it is some entry `l.get i` whose score dominates every
entry and strictly dominates every earlier entry. -/
theorem sortHead_spec (l : List (String × Int)) (hne : l ≠ []) :
    ∃ (i : Nat) (hi : i < l.length),
      (List.insertionSort byScoreDesc l).head? = some (l.get ⟨i, hi⟩) ∧
      (∀ (j : Nat) (hj : j < l.length), (l.get ⟨j, hj⟩).2 ≤ (l.get ⟨i, hi⟩).2) ∧
      (∀ (j : Nat) (hj : j < l.length), j < i → (l.get ⟨j, hj⟩).2 < (l.get ⟨i, hi⟩).2) := by
  induction l with
  | nil => exact absurd rfl hne
  | cons a l ih =>
    rcases eq_or_ne l [] with hl | hl
    · subst hl
      refine ⟨0, Nat.zero_lt_one, rfl, ?_, ?_⟩
      · intro j hj
        have hj0 : j = 0 := by
          simp only [List.length_cons, List.length_nil] at hj
          omega
        subst hj0
        exact le_refl _
      · intro j hj hj0
        exact absurd hj0 (Nat.not_lt_zero j)
    · obtain ⟨i, hi, hhead, hmax, hstrict⟩ := ih hl
      have hsort : List.insertionSort byScoreDesc (a :: l) =
          List.orderedInsert byScoreDesc a (List.insertionSort byScoreDesc l) := rfl
      cases hsl : List.insertionSort byScoreDesc l with
      | nil =>
        rw [hsl] at hhead
        exact absurd hhead (by simp)
      | cons q tail =>
        rw [hsl] at hhead
        have hq : q = l.get ⟨i, hi⟩ := by simpa using hhead
        by_cases hc : q.2 ≤ a.2
        · refine ⟨0, Nat.succ_pos _, ?_, ?_, ?_⟩
          · rw [hsort, hsl]
            simp only [List.orderedInsert]
            rw [if_pos (show byScoreDesc a q from hc)]
            rfl
          · intro j hj
            cases j with
            | zero => exact le_refl _
            | succ jp =>
              have hjp : jp < l.length := Nat.lt_of_succ_lt_succ hj
              have h1 : (a :: l).get ⟨jp + 1, hj⟩ = l.get ⟨jp, hjp⟩ := rfl
              rw [h1]
              exact le_trans (hmax jp hjp) (hq ▸ hc)
          · intro j hj hj0
            exact absurd hj0 (Nat.not_lt_zero j)
        · have hlt : a.2 < q.2 := not_le.mp hc
          refine ⟨i + 1, Nat.succ_lt_succ hi, ?_, ?_, ?_⟩
          · rw [hsort, hsl]
            simp only [List.orderedInsert]
            rw [if_neg (show ¬byScoreDesc a q from hc)]
            have h1 : (a :: l).get ⟨i + 1, Nat.succ_lt_succ hi⟩ = l.get ⟨i, hi⟩ := rfl
            rw [List.head?_cons, h1, hq]
          · intro j hj
            have h1 : (a :: l).get ⟨i + 1, Nat.succ_lt_succ hi⟩ = l.get ⟨i, hi⟩ := rfl
            rw [h1]
            cases j with
            | zero => exact le_of_lt (hq ▸ hlt)
            | succ jp =>
              have hjp : jp < l.length := Nat.lt_of_succ_lt_succ hj
              have h2 : (a :: l).get ⟨jp + 1, hj⟩ = l.get ⟨jp, hjp⟩ := rfl
              rw [h2]
              exact hmax jp hjp
          · intro j hj hjlt
            have h1 : (a :: l).get ⟨i + 1, Nat.succ_lt_succ hi⟩ = l.get ⟨i, hi⟩ := rfl
            rw [h1]
            cases j with
            | zero => exact hq ▸ hlt
            | succ jp =>
              have hjp : jp < l.length := Nat.lt_of_succ_lt_succ hj
              have h2 : (a :: l).get ⟨jp + 1, hj⟩ = l.get ⟨jp, hjp⟩ := rfl
              rw [h2]
              exact hstrict jp hjp (Nat.lt_of_succ_lt_succ hjlt)

/-- The document/score pair at index `j` of the zipped list built inside
`match'`. -/
theorem pairs_get (f : String → Int) (docs : List String) (j : Nat)
    (hjd : j < docs.length) (hj : j < (docs.zip (docs.map f)).length) :
    (docs.zip (docs.map f)).get ⟨j, hj⟩ =
      (docs.get ⟨j, hjd⟩, f (docs.get ⟨j, hjd⟩)) := by
  simp [List.get_eq_getElem, List.getElem_zip, List.getElem_map]

/-- The zipped list built inside `match'` has the same length as `docs`. -/
theorem pairs_length (f : String → Int) (docs : List String) :
    (docs.zip (docs.map f)).length = docs.length := by
  simp

/-- Unfolding: `match'` returns the first component of the head of the sorted pair
list, and an `IndexError` when that list is empty. -/
theorem match_eq_head (encode : String → String → Int) (s : LMState) (query : String)
    (docs : List String) :
    match' encode s query docs =
      ((match (List.insertionSort byScoreDesc
          (docs.zip (docs.map (encode query)))).head? with
        | some p => Except.ok p.1
        | none => Except.error PyError.indexError),
        cacheModel s "sentence-transformers/multi-qa-MiniLM-L6-cos-v1") := by
  simp only [match']
  cases List.insertionSort byScoreDesc (docs.zip (docs.map (encode query))) <;> rfl

/-- On a non-empty document list, `match'` returns a member of `docs`
whose score dominates the score of every document. -/
theorem match_nonempty_spec (encode : String → String → Int) (s : LMState)
    (query : String) (docs : List String) (hne : docs ≠ []) :
    ∃ d ∈ docs, (match' encode s query docs).1 = Except.ok d ∧
      ∀ dq ∈ docs, encode query dq ≤ encode query d := by
  have hpl := pairs_length (encode query) docs
  have hpne : docs.zip (docs.map (encode query)) ≠ [] := by
    intro h0
    apply hne
    rw [h0] at hpl
    simp only [List.length_nil] at hpl
    exact List.length_eq_zero.mp hpl.symm
  obtain ⟨i, hi, hhead, hmax, hstrict⟩ := sortHead_spec _ hpne
  have hid : i < docs.length := hpl ▸ hi
  have hgi := pairs_get (encode query) docs i hid hi
  refine ⟨docs.get ⟨i, hid⟩, List.get_mem docs i hid, ?_, ?_⟩
  · rw [match_eq_head, hhead, hgi]
  · intro dq hdq
    obtain ⟨⟨j, hj⟩, hget⟩ := List.mem_iff_get.mp hdq
    have hjp : j < (docs.zip (docs.map (encode query))).length := hpl ▸ hj
    have hle := hmax j hjp
    rw [pairs_get (encode query) docs j hj hjp, hgi] at hle
    rw [← hget]
    simpa using hle

/-- C1: for every query and non-empty document list, `match` returns an
exact element of the input document list — the one paired with the highest
similarity score — never a transformed or newly constructed string. -/
theorem match_returns_input_document (encode : String → String → Int) (s : LMState)
    (query : String) (docs : List String) (hne : docs ≠ []) :
    ∃ d ∈ docs, (match' encode s query docs).1 = Except.ok d ∧
      ∀ dq ∈ docs, encode query dq ≤ encode query d :=
  match_nonempty_spec encode s query docs hne

/-- C1 witness: a concrete two-document call. -/
theorem match_returns_input_document_witness :
    ∃ d ∈ ["Mars is a planet", "The sun is hot"],
      (match' (fun _ d => if d = "Mars is a planet" then 9 else 1) initState "What is Mars?"
        ["Mars is a planet", "The sun is hot"]).1 = Except.ok d ∧
      ∀ dq ∈ ["Mars is a planet", "The sun is hot"],
        (if dq = "Mars is a planet" then (9 : Int) else 1) ≤
          (if d = "Mars is a planet" then (9 : Int) else 1) :=
  match_returns_input_document (fun _ d => if d = "Mars is a planet" then 9 else 1)
    initState "What is Mars?" ["Mars is a planet", "The sun is hot"] (by decide)

/-- C5: when the maximal similarity score is attained at index `i` and every
earlier document scores strictly below it, `match` returns the document at
index `i`: the stable descending sort breaks ties by original order, so the
earliest top-scoring document wins. -/
theorem match_tie_breaks_earliest (encode : String → String → Int) (s : LMState)
    (query : String) (docs : List String) (i : Nat) (hi : i < docs.length)
    (hmaxd : ∀ (j : Nat) (hj : j < docs.length),
      encode query (docs.get ⟨j, hj⟩) ≤ encode query (docs.get ⟨i, hi⟩))
    (hstrictd : ∀ (j : Nat) (hj : j < docs.length), j < i →
      encode query (docs.get ⟨j, hj⟩) < encode query (docs.get ⟨i, hi⟩)) :
    (match' encode s query docs).1 = Except.ok (docs.get ⟨i, hi⟩) := by
  have hpl := pairs_length (encode query) docs
  have hpne : docs.zip (docs.map (encode query)) ≠ [] := by
    intro h0
    rw [h0] at hpl
    simp only [List.length_nil] at hpl
    exact absurd hi (by rw [← hpl]; simp)
  obtain ⟨ip, hip, hhead, hmax, hstrict⟩ := sortHead_spec _ hpne
  have hipd : ip < docs.length := hpl ▸ hip
  have hgi := pairs_get (encode query) docs ip hipd hip
  have hieq : i = ip := by
    rcases Nat.lt_trichotomy i ip with hlt | heq | hgt
    · have h1 := hstrict i (hpl ▸ hi) hlt
      rw [pairs_get (encode query) docs i hi (hpl ▸ hi), hgi] at h1
      have h2 := hmaxd ip hipd
      exact absurd h2 (not_le.mpr (by simpa using h1))
    · exact heq
    · have h1 := hstrictd ip hipd hgt
      have h2 := hmax i (hpl ▸ hi)
      rw [pairs_get (encode query) docs i hi (hpl ▸ hi), hgi] at h2
      exact absurd (by simpa using h2) (not_le.mpr h1)
  subst hieq
  rw [match_eq_head, hhead, hgi]

/-- C5 witness: two documents with equal scores; the first is returned. -/
theorem match_tie_breaks_earliest_witness :
    (match' (fun _ _ => 5) initState "q" ["first doc", "second doc"]).1 =
      Except.ok (["first doc", "second doc"].get ⟨0, by decide⟩) :=
  match_tie_breaks_earliest (fun _ _ => 5) initState "q" ["first doc", "second doc"] 0
    (by decide) (fun j hj => le_refl 5) (fun j hj hj0 => absurd hj0 (Nat.not_lt_zero j))

/-- C8: on an empty document list `match` raises an `IndexError`; on a
non-empty list the final indexing is in bounds, so it returns some
document and the out-of-bounds branch is unreachable. -/
theorem match_empty_bounds (encode : String → String → Int) (s : LMState)
    (query : String) (docs : List String) :
    (docs = [] → (match' encode s query docs).1 = Except.error PyError.indexError) ∧
    (docs ≠ [] → ∃ d, (match' encode s query docs).1 = Except.ok d) := by
  constructor
  · intro h0
    subst h0
    rfl
  · intro hne
    obtain ⟨d, _, hok, _⟩ := match_nonempty_spec encode s query docs hne
    exact ⟨d, hok⟩

/-- C8 witness: the empty call errors, a singleton call succeeds. -/
theorem match_empty_bounds_witness :
    (match' (fun _ _ => 0) initState "q" []).1 = Except.error PyError.indexError ∧
    ∃ d, (match' (fun _ _ => 0) initState "q" ["only doc"]).1 = Except.ok d :=
  ⟨(match_empty_bounds (fun _ _ => 0) initState "q" []).1 rfl,
    (match_empty_bounds (fun _ _ => 0) initState "q" ["only doc"]).2 (by decide)⟩

/-- A non-empty credential value makes the `os.environ.get` test truthy. -/
theorem pyTruthy_some (env : String → Option String) (v : String)
    (hv : env "textsynth-api-key" = some v) (hne : v ≠ "") :
    pyTruthy (env "textsynth-api-key") = true := by
  rw [hv]
  simpa [pyTruthy] using hne

/-- C2: with the credential variable holding a (non-empty) value, `do`
returns the `"text"` field of the response when present, and raises exactly
`InferenceException`, carrying the raw parsed response, when that field is
absent; no other error arises on the remote path. -/
theorem do_remote_text_or_inference_error (env : String → Option String)
    (remote : String → List (String × String)) (gen : Nat → Nat → String → List String)
    (s : LMState) (prompt v : String)
    (hv : env "textsynth-api-key" = some v) (hne : v ≠ "") :
    (∀ txt, (remote prompt).lookup "text" = some txt →
      do' env remote gen s prompt = (Except.ok txt, s)) ∧
    ((remote prompt).lookup "text" = none →
      do' env remote gen s prompt =
        (Except.error (PyError.inferenceException (remote prompt)), s)) := by
  have ht := pyTruthy_some env v hv hne
  constructor
  · intro txt hl
    simp only [do', ht, if_true, hl]
  · intro hl
    simp only [do', ht, if_true, hl]

/-- C2 witness: a concrete credentialed call whose response has a `"text"`
field returns that field. -/
theorem do_remote_text_or_inference_error_witness :
    do' (fun k => if k = "textsynth-api-key" then some "KEY" else none)
      (fun _ => [("text", "a completion")]) (fun _ _ _ => []) initState "p" =
      (Except.ok "a completion", initState) :=
  (do_remote_text_or_inference_error
    (fun k => if k = "textsynth-api-key" then some "KEY" else none)
    (fun _ => [("text", "a completion")]) (fun _ _ _ => []) initState "p" "KEY"
    (by decide) (by decide)).1 "a completion" (by decide)

/-- C6 counterexample: with the credential variable present but holding the
empty string, `os.environ.get` is falsy, so `do` takes the local path (it
returns the locally generated output and populates the model cache) even
though the variable is present and the remote response has a `"text"`
field — refuting "remote path if and only if the variable is present". -/
theorem do_path_iff_present_counterexample :
    ((fun k => if k = "textsynth-api-key" then some "" else none)
      "textsynth-api-key").isSome = true ∧
    (do' (fun k => if k = "textsynth-api-key" then some "" else none)
      (fun _ => [("text", "REMOTE")]) (fun _ _ _ => ["LOCAL"]) initState "p").1 =
      Except.ok "LOCAL" ∧
    ((do' (fun k => if k = "textsynth-api-key" then some "" else none)
      (fun _ => [("text", "REMOTE")]) (fun _ _ _ => ["LOCAL"]) initState
      "p").2.modelcache "google/flan-t5-large").isSome = true ∧
    ([("text", "REMOTE")] : List (String × String)).lookup "text" = some "REMOTE" ∧
    ("LOCAL" : String) ≠ "REMOTE" :=
  ⟨rfl, rfl, rfl, rfl, by decide⟩

/-- C6 (amended): `do` takes the remote hosted-API path if and only if the
credential variable is present with a non-empty value (Python truthiness of
`os.environ.get`); when it is absent or empty, `do` takes the local path:
lazily loading and caching the fixed model/tokenizer pair, generating, and
returning the first decoded result. -/
theorem do_branch_on_truthy_credential (env : String → Option String)
    (remote : String → List (String × String)) (gen : Nat → Nat → String → List String)
    (s : LMState) (prompt : String) :
    (∀ v, env "textsynth-api-key" = some v → v ≠ "" →
      do' env remote gen s prompt = (doRemoteSpec remote prompt, s)) ∧
    (env "textsynth-api-key" = none ∨ env "textsynth-api-key" = some "" →
      do' env remote gen s prompt = doLocalSpec gen s prompt) := by
  constructor
  · intro v hv hne
    have ht := pyTruthy_some env v hv hne
    simp only [do', ht, if_true, doRemoteSpec]
    cases (remote prompt).lookup "text" <;> rfl
  · intro hz
    have ht : pyTruthy (env "textsynth-api-key") = false := by
      rcases hz with hz | hz <;> rw [hz] <;> simp [pyTruthy]
    simp only [do', ht, Bool.false_eq_true, if_false, doLocalSpec]
    cases gen (get_model s "google/flan-t5-large").1
        (get_tokenizer (get_model s "google/flan-t5-large").2 "google/flan-t5-large").1
        prompt <;> rfl

/-- C6 (amended) witness: with the variable absent, `do` computes the
local-path result. -/
theorem do_branch_on_truthy_credential_witness :
    do' (fun _ => none) (fun _ => [("text", "REMOTE")]) (fun _ _ _ => ["LOCAL"])
      initState "p" =
      doLocalSpec (fun _ _ _ => ["LOCAL"]) initState "p" :=
  (do_branch_on_truthy_credential (fun _ => none) (fun _ => [("text", "REMOTE")])
    (fun _ _ _ => ["LOCAL"]) initState "p").2 (Or.inl rfl)

/-- C10: on the remote path (credential variable truthy), `do` returns the
process state unchanged: neither the model cache nor the tokenizer cache is
touched, and no handle is handed out. -/
theorem do_remote_leaves_caches_unchanged (env : String → Option String)
    (remote : String → List (String × String)) (gen : Nat → Nat → String → List String)
    (s : LMState) (prompt v : String)
    (hv : env "textsynth-api-key" = some v) (hne : v ≠ "") :
    (do' env remote gen s prompt).2 = s := by
  have ht := pyTruthy_some env v hv hne
  simp only [do', ht, if_true]
  cases (remote prompt).lookup "text" <;> rfl

/-- C10 witness: a concrete credentialed call returns the initial state. -/
theorem do_remote_leaves_caches_unchanged_witness :
    (do' (fun k => if k = "textsynth-api-key" then some "KEY" else none)
      (fun _ => []) (fun _ _ _ => ["LOCAL"]) initState "p").2 = initState :=
  do_remote_leaves_caches_unchanged
    (fun k => if k = "textsynth-api-key" then some "KEY" else none)
    (fun _ => []) (fun _ _ _ => ["LOCAL"]) initState "p" "KEY" (by decide) (by decide)

/-- The page loop returns the extract of the first unflagged page, provided
every candidate page carries both of the keys the loop reads. -/
theorem searchLoop_spec (fetch : String → WikiPage) (titles : List String)
    (hwf : ∀ t ∈ titles, ((fetch t).pageprops).isSome ∧ ((fetch t).extract).isSome) :
    searchLoop fetch titles =
      Except.ok (List.findSome? (fun t =>
        if flaggedDisambiguation (fetch t) then none else (fetch t).extract) titles) := by
  induction titles with
  | nil => rfl
  | cons t rest ih =>
    obtain ⟨hpp, hex⟩ := hwf t (List.mem_cons_self t rest)
    obtain ⟨props, hprops⟩ := Option.isSome_iff_exists.mp hpp
    obtain ⟨e, he⟩ := Option.isSome_iff_exists.mp hex
    simp only [searchLoop, hprops]
    by_cases hd : "disambiguation" ∈ props
    · rw [if_pos hd, ih (fun u hu => hwf u (List.mem_cons_of_mem t hu))]
      have hf : flaggedDisambiguation (fetch t) = true := by
        simp [flaggedDisambiguation, hprops, hd]
      rw [List.findSome?_cons]
      simp only [hf, if_true]
    · rw [if_neg hd, he]
      have hf : flaggedDisambiguation (fetch t) = false := by
        simp [flaggedDisambiguation, hprops, hd]
      rw [List.findSome?_cons]
      simp only [hf, Bool.false_eq_true, if_false, he]

/-- C3: `search` asks the title endpoint for at most 5 matches
(`limit = 5`), walks the returned titles in order, skips every page
flagged as a disambiguation page, returns the extract of the first
unflagged page, and returns `None` when every candidate is flagged or no
candidate was returned — stated via `List.findSome?` over the titles
returned for limit 5, for responses whose pages carry the keys the code
reads. -/
theorem search_returns_first_non_disambiguation (wikiSearch : String → Nat → List String)
    (fetch : String → WikiPage) (topic : String)
    (hwf : ∀ t ∈ wikiSearch topic 5,
      ((fetch t).pageprops).isSome ∧ ((fetch t).extract).isSome) :
    search wikiSearch fetch topic =
      Except.ok (List.findSome? (fun t =>
        if flaggedDisambiguation (fetch t) then none else (fetch t).extract)
        (wikiSearch topic 5)) :=
  searchLoop_spec fetch (wikiSearch topic 5) hwf

/-- C3 witness: a flagged first candidate is skipped and the second
extract of the second candidate is returned; a query whose candidates are all flagged
returns `None`. -/
theorem search_returns_first_non_disambiguation_witness :
    search (fun q _ => if q = "topic" then ["Dis", "Good"] else ["Dis"])
      (fun t => if t = "Dis" then ⟨some ["disambiguation"], some "dis text"⟩
        else ⟨some [], some "good text"⟩) "topic" = Except.ok (some "good text") ∧
    search (fun q _ => if q = "topic" then ["Dis", "Good"] else ["Dis"])
      (fun t => if t = "Dis" then ⟨some ["disambiguation"], some "dis text"⟩
        else ⟨some [], some "good text"⟩) "other" = Except.ok none := by
  constructor
  · have h := search_returns_first_non_disambiguation
      (fun q _ => if q = "topic" then ["Dis", "Good"] else ["Dis"])
      (fun t => if t = "Dis" then ⟨some ["disambiguation"], some "dis text"⟩
        else ⟨some [], some "good text"⟩) "topic" (by decide)
    rw [h]
    rfl
  · have h := search_returns_first_non_disambiguation
      (fun q _ => if q = "topic" then ["Dis", "Good"] else ["Dis"])
      (fun t => if t = "Dis" then ⟨some ["disambiguation"], some "dis text"⟩
        else ⟨some [], some "good text"⟩) "other" (by decide)
    rw [h]
    rfl

/-- C9: a well-formed response whose first candidate page lacks the
`"pageprops"` key (an ordinary page without that property) makes `search`
raise a `KeyError` on `first["pageprops"]` instead of returning the
extract or skipping the page. -/
theorem search_missing_pageprops_keyerror :
    search (fun _ _ => ["Some Title"])
      (fun _ => ⟨none, some "an extract"⟩) "topic" =
      Except.error (PyError.keyError "pageprops") := rfl

/-- C4: whenever the sentiment pipeline yields a (non-empty) prediction
list, `is_positive` returns a Boolean, equal to `true` exactly when the top
label of the top prediction is the positive label, spelled `"POSITIVE"` by the
pipeline. -/
theorem is_positive_iff_top_label_positive (pipe : String → List SentPrediction)
    (s : LMState) (doc : String) (p : SentPrediction) (rest : List SentPrediction)
    (hp : pipe doc = p :: rest) :
    (is_positive pipe s doc).1 = Except.ok (p.label == "POSITIVE") ∧
      ((p.label == "POSITIVE") = true ↔ p.label = "POSITIVE") := by
  constructor
  · simp only [is_positive, hp]
  · simp

/-- C4 witness: a pipeline labelling the clearly positive text `"I love
you!"` positive and every other text negative maps the positive text to
`true` and the clearly negative text to `false`. -/
theorem is_positive_iff_top_label_positive_witness :
    (is_positive (fun d => if d = "I love you!" then [⟨"POSITIVE", 1⟩]
      else [⟨"NEGATIVE", 1⟩]) initState "I love you!").1 = Except.ok true ∧
    (is_positive (fun d => if d = "I love you!" then [⟨"POSITIVE", 1⟩]
      else [⟨"NEGATIVE", 1⟩]) initState "That movie was terrible.").1 =
      Except.ok false :=
  ⟨(is_positive_iff_top_label_positive
      (fun d => if d = "I love you!" then [⟨"POSITIVE", 1⟩] else [⟨"NEGATIVE", 1⟩])
      initState "I love you!" ⟨"POSITIVE", 1⟩ [] (by simp)).1,
    (is_positive_iff_top_label_positive
      (fun d => if d = "I love you!" then [⟨"POSITIVE", 1⟩] else [⟨"NEGATIVE", 1⟩])
      initState "That movie was terrible." ⟨"NEGATIVE", 1⟩ [] (by simp)).1⟩

/-- Relation `cacheExtends` is reflexive. -/
theorem cacheExtends_refl (s : LMState) : cacheExtends s s :=
  ⟨fun _ _ h => h, fun _ _ h => h⟩

/-- Relation `cacheExtends` is transitive. -/
theorem cacheExtends_trans {s t u : LMState} (h1 : cacheExtends s t)
    (h2 : cacheExtends t u) : cacheExtends s u :=
  ⟨fun k h hk => h2.1 k h (h1.1 k h hk), fun k h hk => h2.2 k h (h1.2 k h hk)⟩

/-- Function `get_model` only ever adds a model cache entry. -/
theorem cacheExtends_get_model (s : LMState) (m : String) :
    cacheExtends s (get_model s m).2 := by
  unfold get_model
  cases hm : s.modelcache m with
  | some h => exact cacheExtends_refl s
  | none =>
    refine ⟨fun k h hk => ?_, fun k h hk => hk⟩
    by_cases hkm : k = m
    · subst hkm
      rw [hk] at hm
      exact absurd hm (by simp)
    · simpa [hkm] using hk

/-- Function `get_tokenizer` only ever adds a tokenizer cache entry. -/
theorem cacheExtends_get_tokenizer (s : LMState) (tok : String) :
    cacheExtends s (get_tokenizer s tok).2 := by
  unfold get_tokenizer
  cases hm : s.tokenizercache tok with
  | some h => exact cacheExtends_refl s
  | none =>
    refine ⟨fun k h hk => hk, fun k h hk => ?_⟩
    by_cases hkm : k = tok
    · subst hkm
      rw [hk] at hm
      exact absurd hm (by simp)
    · simpa [hkm] using hk

/-- The inline load-or-get pattern only ever adds a model cache entry. -/
theorem cacheExtends_cacheModel (s : LMState) (m : String) :
    cacheExtends s (cacheModel s m) := by
  unfold cacheModel
  cases hm : s.modelcache m with
  | some h => exact cacheExtends_refl s
  | none =>
    refine ⟨fun k h hk => ?_, fun k h hk => hk⟩
    by_cases hkm : k = m
    · subst hkm
      rw [hk] at hm
      exact absurd hm (by simp)
    · simpa [hkm] using hk

/-- Function `do` only ever adds cache entries. -/
theorem cacheExtends_do (env : String → Option String)
    (remote : String → List (String × String)) (gen : Nat → Nat → String → List String)
    (s : LMState) (prompt : String) :
    cacheExtends s (do' env remote gen s prompt).2 := by
  unfold do'
  cases ht : pyTruthy (env "textsynth-api-key")
  · simp only [Bool.false_eq_true, if_false]
    have h1 := cacheExtends_get_model s "google/flan-t5-large"
    have h2 := cacheExtends_get_tokenizer (get_model s "google/flan-t5-large").2
      "google/flan-t5-large"
    cases gen (get_model s "google/flan-t5-large").1
        (get_tokenizer (get_model s "google/flan-t5-large").2 "google/flan-t5-large").1
        prompt <;>
      exact cacheExtends_trans h1 h2
  · simp only [if_true]
    cases (remote prompt).lookup "text" <;> exact cacheExtends_refl s

/-- C7: every operation preserves existing model/tokenizer cache entries:
a cached entry is never removed, replaced or reloaded — the final state of each
operation extends the initial one — and a lookup of an already cached
key returns the identical cached handle with the state (hence the load
counter) untouched. -/
theorem operations_preserve_cache_entries (env : String → Option String)
    (remote : String → List (String × String)) (gen : Nat → Nat → String → List String)
    (encode : String → String → Int) (qa : String → String → String)
    (pipe : String → List SentPrediction) (s : LMState)
    (prompt userprompt query question context doc m tok : String) (docs : List String) :
    (∀ h, s.modelcache m = some h → get_model s m = (h, s)) ∧
    (∀ h, s.tokenizercache tok = some h → get_tokenizer s tok = (h, s)) ∧
    cacheExtends s (get_model s m).2 ∧
    cacheExtends s (get_tokenizer s tok).2 ∧
    cacheExtends s (do' env remote gen s prompt).2 ∧
    cacheExtends s (chat env remote gen s userprompt).2 ∧
    cacheExtends s (match' encode s query docs).2 ∧
    cacheExtends s (extract_answer qa s question context).2 ∧
    cacheExtends s (is_positive pipe s doc).2 := by
  refine ⟨?_, ?_, cacheExtends_get_model s m, cacheExtends_get_tokenizer s tok,
    cacheExtends_do env remote gen s prompt, cacheExtends_do env remote gen s _,
    ?_, ?_, ?_⟩
  · intro h hm
    simp only [get_model, hm]
  · intro h hm
    simp only [get_tokenizer, hm]
  · rw [match_eq_head]
    exact cacheExtends_cacheModel s "sentence-transformers/multi-qa-MiniLM-L6-cos-v1"
  · exact cacheExtends_cacheModel s "distilbert-base-cased-distilled-squad"
  · unfold is_positive
    cases pipe doc <;>
      exact cacheExtends_cacheModel s "distilbert-base-uncased-finetuned-sst-2-english"

/-- C7 witness: in a concrete state caching one model, a repeated lookup
returns the identical handle with the state untouched, and a concrete
`do` call extends the cache. -/
theorem operations_preserve_cache_entries_witness :
    get_model ⟨fun k => if k = "m" then some 7 else none, fun _ => none, 8⟩ "m" =
      (7, ⟨fun k => if k = "m" then some 7 else none, fun _ => none, 8⟩) ∧
    cacheExtends ⟨fun k => if k = "m" then some 7 else none, fun _ => none, 8⟩
      (do' (fun _ => none) (fun _ => []) (fun _ _ _ => ["LOCAL"])
        ⟨fun k => if k = "m" then some 7 else none, fun _ => none, 8⟩ "p").2 :=
  ⟨(operations_preserve_cache_entries (fun _ => none) (fun _ => [])
      (fun _ _ _ => ["LOCAL"]) (fun _ _ => 0) (fun _ _ => "") (fun _ => [])
      ⟨fun k => if k = "m" then some 7 else none, fun _ => none, 8⟩
      "p" "u" "q" "qn" "cx" "d" "m" "t" []).1 7 (by simp),
    (operations_preserve_cache_entries (fun _ => none) (fun _ => [])
      (fun _ _ _ => ["LOCAL"]) (fun _ _ => 0) (fun _ _ => "") (fun _ => [])
      ⟨fun k => if k = "m" then some 7 else none, fun _ => none, 8⟩
      "p" "u" "q" "qn" "cx" "d" "m" "t" []).2.2.2.2.1⟩

end LanguageModels
